import Mathlib

/-!
Shallow embedding of the SpecAuth session lifecycle manager
(`src/client.ts`, class `SpecAuthClient`) for verification.

Modelling conventions:
* Machine time is epoch seconds as `Int` (`Math.round(Date.now() / 1000)`);
  timer delays and fire times are milliseconds as `Int`, so the fractional
  margin `0.5 s` becomes the exact integer `500 ms`.
* JavaScript truthiness on the fields the code tests is modelled explicitly:
  a number is falsy when `0`, a string when `""`, `null`/`undefined` as
  `Option.none`.
* The transport client (`this.api`) is an external collaborator; each
  operation takes its response as an explicit `ApiResp` argument.
* The durable store holds one JSON document under a single key; a cell is
  `absent`, `malformed` (fails `_parseStorageJSON`), or a parsed document.
* The host timer environment is modelled by a list of armed timers plus the
  remembered handle `refreshTokenTimer`; `setTimeout` appends a fresh timer,
  `clearTimeout h` removes the timer with id `h`.
* `isBrowser()` is taken to be `true` (the storage-interacting configuration
  the specification describes).
-/

structure User where
  id : String
deriving DecidableEq, Repr

structure Session where
  accessToken : String
  expiresIn : Option Int := none
  expiresAt : Option Int := none
  refreshToken : Option String := none
  tokenType : String
  user : Option User
deriving DecidableEq, Repr

structure ApiError where
  message : String
  status : Int
deriving DecidableEq, Repr

/-- An error surfaced by the client: either a structured transport error or a
thrown message string. -/
inductive AuthErr where
  | api (e : ApiError)
  | msg (m : String)
deriving DecidableEq, Repr

/-- Payload of a successful `verifyAuth` exchange. -/
structure AuthSuccess where
  session : Session
  user : User
  isNewUser : Bool
deriving DecidableEq, Repr

/-- Outcome of one transport call: a structured error, a resolved-but-empty
payload (the `!data` check), or a payload. -/
inductive ApiResp (α : Type) where
  | err (e : ApiError)
  | missing
  | ok (data : α)
deriving DecidableEq, Repr

/-- The single JSON document persisted under the storage key. `sessions` is a
JavaScript object, i.e. a key-value map with unique keys. -/
structure PersistedSessions where
  sessions : List (String × Session)
  activeAddress : String
deriving DecidableEq, Repr

/-- One storage cell: what `_parseStorageJSON ∘ getItem` can see. -/
inductive StorageCell where
  | absent
  | malformed
  | doc (d : PersistedSessions)
deriving DecidableEq, Repr

def readStorage : StorageCell → Option PersistedSessions
  | .doc d => some d
  | _ => none

/-- JavaScript truthiness of a possibly-absent number (`0` is falsy). -/
def truthyI : Option Int → Bool
  | none => false
  | some n => n != 0

/-- JavaScript truthiness of a possibly-absent string (`""` is falsy). -/
def truthyS : Option String → Bool
  | none => false
  | some s => s != ""

/-- `sessions[address]` on the parsed object. -/
def lookupSession (l : List (String × Session)) (a : String) : Option Session :=
  (l.find? (fun p => p.1 == a)).map (fun p => p.2)

/-- `persistedSessions.sessions[addr] = s`: update in place if the key exists
(JavaScript objects keep the key position), else append. -/
def insertSession : List (String × Session) → String → Session → List (String × Session)
  | [], a, v => [(a, v)]
  | p :: rest, a, v => if p.1 = a then (a, v) :: rest else p :: insertSession rest a v

inductive AuthEvent where
  | signedIn
  | signedOut
  | tokenRefreshed
  | initialStateLoaded
deriving DecidableEq, Repr

/-- An armed host timer. -/
structure Timer where
  id : Nat
  fireAtMs : Int
deriving DecidableEq, Repr

/-- The manager's state together with the observable environment (armed host
timers, durable storage, broadcast log). -/
structure ClientState where
  currentSession : Option Session
  currentUser : Option User
  autoRefreshToken : Bool
  persistSessions : Bool
  refreshTokenTimer : Option Nat
  armedTimers : List Timer
  nextTimerId : Nat
  storage : StorageCell
  loading : Bool
  events : List AuthEvent
deriving DecidableEq, Repr

/-- `_notifyAllSubscribers(event)`: broadcast to every subscriber; recorded as
an append to the event log. -/
def notify (e : AuthEvent) (s : ClientState) : ClientState :=
  { s with events := s.events ++ [e] }

/-- `if (this.refreshTokenTimer) clearTimeout(this.refreshTokenTimer)`. The
handle itself is not reset by the code. -/
def clearTimer (s : ClientState) : ClientState :=
  match s.refreshTokenTimer with
  | none => s
  | some h => { s with armedTimers := s.armedTimers.filter (fun t => t.id != h) }

/-- `_startAutoRefreshToken(value)`: clear any previous timer, then arm a new
one unless the delay is non-positive or auto-refresh is disabled. -/
def startAutoRefreshToken (nowMs value : Int) (s : ClientState) : ClientState :=
  let s1 := clearTimer s
  if value ≤ 0 ∨ s1.autoRefreshToken = false then s1
  else
    { s1 with
      refreshTokenTimer := some s1.nextTimerId
      armedTimers := s1.armedTimers ++ [⟨s1.nextTimerId, nowMs + value⟩]
      nextTimerId := s1.nextTimerId + 1 }

/-- `_persistSessions(currentSession)`: merge the session into the persisted
document under `currentSession.user.id` and mark that address active. When the
session has no user, `currentSession.user.id` raises inside the (unawaited)
helper before `setItem` runs, so no write occurs. -/
def persistSessionsOp (sess : Session) (s : ClientState) : ClientState :=
  match sess.user with
  | none => s
  | some u =>
    let prior := (readStorage s.storage).getD ⟨[], ""⟩
    { s with storage := .doc ⟨insertSession prior.sessions u.id sess, u.id⟩ }

/-- First phase of `_saveSession`: set `loading`, `currentSession`,
`currentUser`. -/
def setMemSession (sess : Session) (s : ClientState) : ClientState :=
  { s with loading := false, currentSession := some sess, currentUser := sess.user }

/-- Second phase of `_saveSession`: when `expiresAt` is truthy, compute
`expiresIn = expiresAt - timeNow` and arm the scheduler for
`(expiresIn - margin) * 1000` ms, margin `60` when `expiresIn > 60` else
`0.5`. -/
def armFromExpiry (now : Int) (sess : Session) (s : ClientState) : ClientState :=
  match sess.expiresAt with
  | some ea =>
    if ea ≠ 0 then
      startAutoRefreshToken (now * 1000)
        (if ea - now > 60 then (ea - now - 60) * 1000 else (ea - now) * 1000 - 500) s
    else s
  | none => s

/-- `_saveSession(session)`: set in-memory state, arm the refresh timer from
`expiresAt`, persist when enabled. -/
def saveSession (now : Int) (sess : Session) (s : ClientState) : ClientState :=
  if (armFromExpiry now sess (setMemSession sess s)).persistSessions then
    persistSessionsOp sess (armFromExpiry now sess (setMemSession sess s))
  else armFromExpiry now sess (setMemSession sess s)

/-- `_removeSessions()`: clear in-memory state, cancel the timer, erase the
storage key. -/
def removeSessions (s : ClientState) : ClientState :=
  let s1 := clearTimer { s with currentSession := none, currentUser := none }
  { s1 with storage := .absent }

structure RefreshResult where
  data : Option Session
  error : Option AuthErr
deriving DecidableEq, Repr

/-- `_callRefreshToken(refreshToken, user)`: exchange the token, fail on a
missing token, transport error, or a returned session without a user; apply
the user override (`session.user = user || session.user`), then save and
broadcast `TOKEN_REFRESHED` and `SIGNED_IN`. -/
def callRefreshToken (resp : ApiResp Session) (now : Int)
    (refreshToken : Option String) (user : Option User)
    (s : ClientState) : RefreshResult × ClientState :=
  if truthyS refreshToken = false then
    (⟨none, some (.msg "No current session.")⟩, s)
  else
    match resp with
    | .err e => (⟨none, some (.api e)⟩, s)
    | .missing => (⟨none, some (.msg "Invalid session data.")⟩, s)
    | .ok sess =>
      match sess.user with
      | none => (⟨none, some (.msg "Invalid session data.")⟩, s)
      | some su =>
        let sess1 := { sess with user := some (user.getD su) }
        let s1 := notify .signedIn (notify .tokenRefreshed (saveSession now sess1 s))
        (⟨some sess1, none⟩, s1)

structure VerifyResult where
  session : Option Session
  user : Option User
  isNewUser : Bool
  error : Option AuthErr
deriving DecidableEq, Repr

/-- `verify(address, signature)`: on success save the returned session and
broadcast `SIGNED_IN`; any failure yields the all-null error result. -/
def verify (resp : ApiResp AuthSuccess) (now : Int) (s : ClientState) :
    VerifyResult × ClientState :=
  match resp with
  | .err e => (⟨none, none, false, some (.api e)⟩, s)
  | .missing => (⟨none, none, false, some (.msg "An error occurred on sign-in.")⟩, s)
  | .ok d =>
    let s1 := notify .signedIn (saveSession now d.session s)
    (⟨some d.session, some d.user, d.isNewUser, none⟩, s1)

structure SignOutResult where
  revokeCalledWith : Option String
  error : Option ApiError
deriving DecidableEq, Repr

/-- `signOut()`: capture the access token, remove sessions, broadcast
`SIGNED_OUT`, then revoke the captured token if truthy. `revokeResp` is the
transport outcome of `api.signOut`; `revokeCalledWith` records whether and
with which token the revoke operation was invoked. -/
def signOut (revokeResp : Option ApiError) (s : ClientState) :
    SignOutResult × ClientState :=
  let accessToken := s.currentSession.map (fun c => c.accessToken)
  let s2 := notify .signedOut (removeSessions s)
  if truthyS accessToken then
    match revokeResp with
    | some e => (⟨accessToken, some e⟩, s2)
    | none => (⟨accessToken, none⟩, s2)
  else (⟨none, none⟩, s2)

/-- `switchToInactiveSession(address)`; `resp` is the transport response the
inner refresh exchange would receive. -/
def switchToInactiveSession (resp : ApiResp Session) (now : Int) (address : String)
    (s : ClientState) : Bool × ClientState :=
  if s.currentUser.map (fun u => u.id) = some address then (true, s)
  else
    match readStorage s.storage with
    | none => (false, s)
    | some d =>
      match lookupSession d.sessions address with
      | none => (false, s)
      | some inact =>
        match inact.expiresAt, inact.user with
        | some ea, some iu =>
          if ea = 0 then (false, s)
          else if now ≤ ea then
            (true, notify .signedIn (saveSession now inact s))
          else if s.autoRefreshToken = true ∧ truthyS inact.refreshToken = true then
            let r := callRefreshToken resp now inact.refreshToken (some iu) s
            match r.1.error with
            | some _ => (false, removeSessions r.2)
            | none => (true, r.2)
          else (false, s)
        | _, _ => (false, s)

/-- `_recoverActiveSession()` (phase 1, synchronous): adopt the active
persisted session when present, unexpired and complete. `syncAvail` is whether
the storage backend supports synchronous reads (an async-only backend returns
a promise, which fails `_parseStorageJSON`). -/
def recoverActiveSession (syncAvail : Bool) (now : Int) (s : ClientState) : ClientState :=
  match (if syncAvail then readStorage s.storage else none) with
  | none => s
  | some d =>
    if d.activeAddress = "" then s
    else
      match lookupSession d.sessions d.activeAddress with
      | none => s
      | some cur =>
        match cur.expiresAt with
        | some ea =>
          if ea ≠ 0 ∧ now ≤ ea ∧ cur.user.isSome = true then
            notify .signedIn (notify .initialStateLoaded (saveSession now cur s))
          else s
        | none => s

/-- The second argument passed to `_callRefreshToken` by `_recoverAndRefresh`:
`currentSession.user`, with the JavaScript default parameter falling back to
`this.currentUser` when the session has no user (absent `user` collapsed with
`null`). -/
def overrideUser (cur : Option Session) (s : ClientState) : Option User :=
  match cur.bind (fun c => c.user) with
  | some u => some u
  | none => s.currentUser

/-- `_recoverAndRefresh()` (phase 2, asynchronous): reconcile the persisted
store, then set `loading := false` and broadcast `INITIAL_STATE_LOADED`. -/
def recoverAndRefresh (resp : ApiResp Session) (now : Int) (s : ClientState) : ClientState :=
  match readStorage s.storage with
  | none => notify .initialStateLoaded { s with loading := false }
  | some d =>
    let cur : Option Session :=
      if d.activeAddress = "" then none else lookupSession d.sessions d.activeAddress
    let ea : Option Int := cur.bind (fun c => c.expiresAt)
    let s1 :=
      if truthyI ea = true ∧ ea.getD 0 < now then
        if s.autoRefreshToken = true ∧ truthyS (cur.bind (fun c => c.refreshToken)) = true then
          let r := callRefreshToken resp now (cur.bind (fun c => c.refreshToken))
            (overrideUser cur s) s
          if r.1.error.isSome then removeSessions r.2 else r.2
        else removeSessions s
      else if truthyI ea = false ∨ cur.isNone = true ∨ (cur.bind (fun c => c.user)).isNone = true then
        removeSessions s
      else
        match cur with
        | some c => notify .signedIn (saveSession now c s)
        | none => s
    notify .initialStateLoaded { s1 with loading := false }

/-- Constructor-time recovery with `recoverSessions = true`: phase 1 then
phase 2. -/
def fullRecovery (syncAvail : Bool) (resp : ApiResp Session) (now : Int)
    (s : ClientState) : ClientState :=
  recoverAndRefresh resp now (recoverActiveSession syncAvail now s)

/-- The adoption guard of `_recoverActiveSession`: a synchronous read yields a
document whose truthy `activeAddress` resolves to a session with a truthy
`expiresAt` that has not passed and a bound user. Phase 1 saves and broadcasts
exactly when this holds. -/
def phase1Adopts (syncAvail : Bool) (now : Int) (s : ClientState) : Prop :=
  ∃ d cur ea, (if syncAvail then readStorage s.storage else none) = some d ∧
    d.activeAddress ≠ "" ∧
    lookupSession d.sessions d.activeAddress = some cur ∧
    cur.expiresAt = some ea ∧ ea ≠ 0 ∧ now ≤ ea ∧ cur.user.isSome = true

/-- The state a freshly constructed client has before recovery runs, over a
pre-existing storage cell. -/
def initState (autoRefresh persist : Bool) (store : StorageCell) : ClientState :=
  { currentSession := none
    currentUser := none
    autoRefreshToken := autoRefresh
    persistSessions := persist
    refreshTokenTimer := none
    armedTimers := []
    nextTimerId := 0
    storage := store
    loading := true
    events := [] }

/-- One observable state transition of the manager: a public operation, a
constructor recovery phase, a scheduler firing (`_callRefreshToken` with its
default arguments), or the `recoverSessions = false` constructor branch. -/
inductive Step : ClientState → ClientState → Prop where
  | ofVerify (s : ClientState) (resp : ApiResp AuthSuccess) (now : Int) :
      Step s (verify resp now s).2
  | ofSwitch (s : ClientState) (resp : ApiResp Session) (now : Int) (addr : String) :
      Step s (switchToInactiveSession resp now addr s).2
  | ofSignOut (s : ClientState) (r : Option ApiError) :
      Step s (signOut r s).2
  | ofRecoverSync (s : ClientState) (sync : Bool) (now : Int) :
      Step s (recoverActiveSession sync now s)
  | ofRecoverAsync (s : ClientState) (resp : ApiResp Session) (now : Int) :
      Step s (recoverAndRefresh resp now s)
  | ofTimerFire (s : ClientState) (resp : ApiResp Session) (now : Int) :
      Step s (callRefreshToken resp now
        (s.currentSession.bind (fun c => c.refreshToken)) s.currentUser s).2
  | ofRemove (s : ClientState) :
      Step s (removeSessions s)

/-- States reachable from a fresh client. -/
def Reachable (a b : ClientState) : Prop := Relation.ReflTransGen Step a b

/-- The scheduler invariant: every armed host timer is the one tracked by the
manager's handle, and at most one is armed. -/
def TimerInv (s : ClientState) : Prop :=
  (∀ t ∈ s.armedTimers, s.refreshTokenTimer = some t.id) ∧ s.armedTimers.length ≤ 1

/-! ### Concrete fixtures -/

def userA : User := ⟨"0xA"⟩

def userB : User := ⟨"0xB"⟩

def sessA : Session :=
  { accessToken := "atA", expiresAt := some 1000, refreshToken := some "rtA"
    tokenType := "bearer", user := some userA }

def sessNoUser : Session :=
  { accessToken := "atN", expiresAt := some 1000, refreshToken := some "rtN"
    tokenType := "bearer", user := none }

def s0 : ClientState := initState true true .absent

/-- Keys of the persisted document are unique: an invariant of every cell a
JSON parse can produce (a JavaScript object cannot hold duplicate keys). -/
def CellKeysNodup : StorageCell → Prop
  | .doc d => (d.sessions.map Prod.fst).Nodup
  | _ => True

def docA : PersistedSessions := ⟨[("0xA", sessA)], "0xA"⟩

/-- A fresh client constructed over a store holding one valid active session. -/
def sDocA : ClientState := initState true true (.doc docA)

/-- A signed-in manager state with one armed timer, satisfying `TimerInv`. -/
def sActive : ClientState :=
  { currentSession := some sessA
    currentUser := some userA
    autoRefreshToken := true
    persistSessions := true
    refreshTokenTimer := some 0
    armedTimers := [⟨0, 940000⟩]
    nextTimerId := 1
    storage := .doc docA
    loading := false
    events := [] }

/-! ### Frame lemmas for the state-mutating primitives -/

@[simp] theorem clearTimer_events (s : ClientState) : (clearTimer s).events = s.events := by
  unfold clearTimer; cases h : s.refreshTokenTimer <;> simp

@[simp] theorem clearTimer_storage (s : ClientState) : (clearTimer s).storage = s.storage := by
  unfold clearTimer; cases h : s.refreshTokenTimer <;> simp

@[simp] theorem clearTimer_currentSession (s : ClientState) :
    (clearTimer s).currentSession = s.currentSession := by
  unfold clearTimer; cases h : s.refreshTokenTimer <;> simp

@[simp] theorem clearTimer_currentUser (s : ClientState) :
    (clearTimer s).currentUser = s.currentUser := by
  unfold clearTimer; cases h : s.refreshTokenTimer <;> simp

@[simp] theorem clearTimer_autoRefreshToken (s : ClientState) :
    (clearTimer s).autoRefreshToken = s.autoRefreshToken := by
  unfold clearTimer; cases h : s.refreshTokenTimer <;> simp

@[simp] theorem clearTimer_persistSessions (s : ClientState) :
    (clearTimer s).persistSessions = s.persistSessions := by
  unfold clearTimer; cases h : s.refreshTokenTimer <;> simp

@[simp] theorem clearTimer_nextTimerId (s : ClientState) :
    (clearTimer s).nextTimerId = s.nextTimerId := by
  unfold clearTimer; cases h : s.refreshTokenTimer <;> simp

@[simp] theorem clearTimer_refreshTokenTimer (s : ClientState) :
    (clearTimer s).refreshTokenTimer = s.refreshTokenTimer := by
  unfold clearTimer; cases h : s.refreshTokenTimer <;> simp [h]

@[simp] theorem clearTimer_loading (s : ClientState) :
    (clearTimer s).loading = s.loading := by
  unfold clearTimer; cases h : s.refreshTokenTimer <;> simp

/-- Under the scheduler invariant, cancelling leaves no armed timer. -/
theorem clearTimer_armedTimers_nil (s : ClientState) (h : TimerInv s) :
    (clearTimer s).armedTimers = [] := by
  unfold clearTimer
  cases hr : s.refreshTokenTimer with
  | none =>
    cases ha : s.armedTimers with
    | nil => simpa using ha
    | cons t ts => exact absurd (h.1 t (by simp [ha])) (by simp [hr])
  | some v =>
    simp only [List.filter_eq_nil_iff]
    intro t ht
    have hh := h.1 t ht
    rw [hr] at hh
    simp only [Option.some.injEq] at hh
    simp [hh]

@[simp] theorem startAutoRefreshToken_events (nowMs value : Int) (s : ClientState) :
    (startAutoRefreshToken nowMs value s).events = s.events := by
  unfold startAutoRefreshToken; dsimp only; split <;> simp

@[simp] theorem startAutoRefreshToken_storage (nowMs value : Int) (s : ClientState) :
    (startAutoRefreshToken nowMs value s).storage = s.storage := by
  unfold startAutoRefreshToken; dsimp only; split <;> simp

@[simp] theorem startAutoRefreshToken_currentSession (nowMs value : Int) (s : ClientState) :
    (startAutoRefreshToken nowMs value s).currentSession = s.currentSession := by
  unfold startAutoRefreshToken; dsimp only; split <;> simp

@[simp] theorem startAutoRefreshToken_currentUser (nowMs value : Int) (s : ClientState) :
    (startAutoRefreshToken nowMs value s).currentUser = s.currentUser := by
  unfold startAutoRefreshToken; dsimp only; split <;> simp

@[simp] theorem startAutoRefreshToken_autoRefreshToken (nowMs value : Int) (s : ClientState) :
    (startAutoRefreshToken nowMs value s).autoRefreshToken = s.autoRefreshToken := by
  unfold startAutoRefreshToken; dsimp only; split <;> simp

@[simp] theorem startAutoRefreshToken_persistSessions (nowMs value : Int) (s : ClientState) :
    (startAutoRefreshToken nowMs value s).persistSessions = s.persistSessions := by
  unfold startAutoRefreshToken; dsimp only; split <;> simp

@[simp] theorem startAutoRefreshToken_loading (nowMs value : Int) (s : ClientState) :
    (startAutoRefreshToken nowMs value s).loading = s.loading := by
  unfold startAutoRefreshToken; dsimp only; split <;> simp

@[simp] theorem persistSessionsOp_events (sess : Session) (s : ClientState) :
    (persistSessionsOp sess s).events = s.events := by
  unfold persistSessionsOp; cases h : sess.user <;> simp

@[simp] theorem persistSessionsOp_currentSession (sess : Session) (s : ClientState) :
    (persistSessionsOp sess s).currentSession = s.currentSession := by
  unfold persistSessionsOp; cases h : sess.user <;> simp

@[simp] theorem persistSessionsOp_currentUser (sess : Session) (s : ClientState) :
    (persistSessionsOp sess s).currentUser = s.currentUser := by
  unfold persistSessionsOp; cases h : sess.user <;> simp

@[simp] theorem persistSessionsOp_armedTimers (sess : Session) (s : ClientState) :
    (persistSessionsOp sess s).armedTimers = s.armedTimers := by
  unfold persistSessionsOp; cases h : sess.user <;> simp

@[simp] theorem persistSessionsOp_refreshTokenTimer (sess : Session) (s : ClientState) :
    (persistSessionsOp sess s).refreshTokenTimer = s.refreshTokenTimer := by
  unfold persistSessionsOp; cases h : sess.user <;> simp

@[simp] theorem persistSessionsOp_nextTimerId (sess : Session) (s : ClientState) :
    (persistSessionsOp sess s).nextTimerId = s.nextTimerId := by
  unfold persistSessionsOp; cases h : sess.user <;> simp

@[simp] theorem persistSessionsOp_loading (sess : Session) (s : ClientState) :
    (persistSessionsOp sess s).loading = s.loading := by
  unfold persistSessionsOp; cases h : sess.user <;> simp

@[simp] theorem persistSessionsOp_autoRefreshToken (sess : Session) (s : ClientState) :
    (persistSessionsOp sess s).autoRefreshToken = s.autoRefreshToken := by
  unfold persistSessionsOp; cases h : sess.user <;> simp

@[simp] theorem persistSessionsOp_persistSessions (sess : Session) (s : ClientState) :
    (persistSessionsOp sess s).persistSessions = s.persistSessions := by
  unfold persistSessionsOp; cases h : sess.user <;> simp

@[simp] theorem notify_events (e : AuthEvent) (s : ClientState) :
    (notify e s).events = s.events ++ [e] := rfl

@[simp] theorem notify_currentSession (e : AuthEvent) (s : ClientState) :
    (notify e s).currentSession = s.currentSession := rfl

@[simp] theorem notify_currentUser (e : AuthEvent) (s : ClientState) :
    (notify e s).currentUser = s.currentUser := rfl

@[simp] theorem notify_storage (e : AuthEvent) (s : ClientState) :
    (notify e s).storage = s.storage := rfl

@[simp] theorem notify_armedTimers (e : AuthEvent) (s : ClientState) :
    (notify e s).armedTimers = s.armedTimers := rfl

@[simp] theorem notify_refreshTokenTimer (e : AuthEvent) (s : ClientState) :
    (notify e s).refreshTokenTimer = s.refreshTokenTimer := rfl

@[simp] theorem armFromExpiry_events (now : Int) (sess : Session) (s : ClientState) :
    (armFromExpiry now sess s).events = s.events := by
  unfold armFromExpiry; cases h : sess.expiresAt <;> simp only [] <;> try rfl
  split <;> simp

@[simp] theorem armFromExpiry_storage (now : Int) (sess : Session) (s : ClientState) :
    (armFromExpiry now sess s).storage = s.storage := by
  unfold armFromExpiry; cases h : sess.expiresAt <;> simp only [] <;> try rfl
  split <;> simp

@[simp] theorem armFromExpiry_currentSession (now : Int) (sess : Session) (s : ClientState) :
    (armFromExpiry now sess s).currentSession = s.currentSession := by
  unfold armFromExpiry; cases h : sess.expiresAt <;> simp only [] <;> try rfl
  split <;> simp

@[simp] theorem armFromExpiry_currentUser (now : Int) (sess : Session) (s : ClientState) :
    (armFromExpiry now sess s).currentUser = s.currentUser := by
  unfold armFromExpiry; cases h : sess.expiresAt <;> simp only [] <;> try rfl
  split <;> simp

@[simp] theorem armFromExpiry_persistSessions (now : Int) (sess : Session) (s : ClientState) :
    (armFromExpiry now sess s).persistSessions = s.persistSessions := by
  unfold armFromExpiry; cases h : sess.expiresAt <;> simp only [] <;> try rfl
  split <;> simp

@[simp] theorem armFromExpiry_autoRefreshToken (now : Int) (sess : Session) (s : ClientState) :
    (armFromExpiry now sess s).autoRefreshToken = s.autoRefreshToken := by
  unfold armFromExpiry; cases h : sess.expiresAt <;> simp only [] <;> try rfl
  split <;> simp

@[simp] theorem armFromExpiry_loading (now : Int) (sess : Session) (s : ClientState) :
    (armFromExpiry now sess s).loading = s.loading := by
  unfold armFromExpiry; cases h : sess.expiresAt <;> simp only [] <;> try rfl
  split <;> simp

@[simp] theorem saveSession_events (now : Int) (sess : Session) (s : ClientState) :
    (saveSession now sess s).events = s.events := by
  unfold saveSession; split <;> simp [setMemSession]

@[simp] theorem saveSession_currentSession (now : Int) (sess : Session) (s : ClientState) :
    (saveSession now sess s).currentSession = some sess := by
  unfold saveSession; split <;> simp [setMemSession]

@[simp] theorem saveSession_currentUser (now : Int) (sess : Session) (s : ClientState) :
    (saveSession now sess s).currentUser = sess.user := by
  unfold saveSession; split <;> simp [setMemSession]

@[simp] theorem saveSession_loading (now : Int) (sess : Session) (s : ClientState) :
    (saveSession now sess s).loading = false := by
  unfold saveSession; split <;> simp [setMemSession]

@[simp] theorem removeSessions_events (s : ClientState) :
    (removeSessions s).events = s.events := by
  unfold removeSessions; simp

@[simp] theorem removeSessions_currentSession (s : ClientState) :
    (removeSessions s).currentSession = none := by
  unfold removeSessions; dsimp only
  rw [show ∀ t : ClientState, ({ t with storage := .absent } : ClientState).currentSession
    = t.currentSession from fun t => rfl]
  simp

@[simp] theorem removeSessions_currentUser (s : ClientState) :
    (removeSessions s).currentUser = none := by
  unfold removeSessions; dsimp only
  rw [show ∀ t : ClientState, ({ t with storage := .absent } : ClientState).currentUser
    = t.currentUser from fun t => rfl]
  simp

@[simp] theorem removeSessions_storage (s : ClientState) :
    (removeSessions s).storage = .absent := by
  unfold removeSessions; dsimp only

/-! ### Scheduler invariant: preservation lemmas -/

@[simp] theorem setMemSession_armedTimers (sess : Session) (s : ClientState) :
    (setMemSession sess s).armedTimers = s.armedTimers := rfl

@[simp] theorem setMemSession_refreshTokenTimer (sess : Session) (s : ClientState) :
    (setMemSession sess s).refreshTokenTimer = s.refreshTokenTimer := rfl

@[simp] theorem setMemSession_autoRefreshToken (sess : Session) (s : ClientState) :
    (setMemSession sess s).autoRefreshToken = s.autoRefreshToken := rfl

@[simp] theorem setMemSession_persistSessions (sess : Session) (s : ClientState) :
    (setMemSession sess s).persistSessions = s.persistSessions := rfl

@[simp] theorem setMemSession_storage (sess : Session) (s : ClientState) :
    (setMemSession sess s).storage = s.storage := rfl

@[simp] theorem setMemSession_events (sess : Session) (s : ClientState) :
    (setMemSession sess s).events = s.events := rfl

@[simp] theorem setMemSession_nextTimerId (sess : Session) (s : ClientState) :
    (setMemSession sess s).nextTimerId = s.nextTimerId := rfl

theorem timerInv_of_armed_nil (s : ClientState) (h : s.armedTimers = []) : TimerInv s :=
  ⟨by simp [h], by simp [h]⟩

theorem setMemSession_timerInv (sess : Session) (s : ClientState) (h : TimerInv s) :
    TimerInv (setMemSession sess s) := h

theorem notify_timerInv (e : AuthEvent) (s : ClientState) (h : TimerInv s) :
    TimerInv (notify e s) := h

theorem persistSessionsOp_timerInv (sess : Session) (s : ClientState) (h : TimerInv s) :
    TimerInv (persistSessionsOp sess s) := by
  constructor
  · intro t ht
    rw [persistSessionsOp_refreshTokenTimer]
    exact h.1 t (by rwa [persistSessionsOp_armedTimers] at ht)
  · rw [persistSessionsOp_armedTimers]; exact h.2

theorem startAutoRefreshToken_timerInv (nowMs value : Int) (s : ClientState)
    (h : TimerInv s) : TimerInv (startAutoRefreshToken nowMs value s) := by
  unfold startAutoRefreshToken; dsimp only
  split
  · exact timerInv_of_armed_nil _ (clearTimer_armedTimers_nil s h)
  · refine ⟨?_, ?_⟩
    · intro t ht
      simp only [clearTimer_armedTimers_nil s h, List.nil_append, List.mem_singleton] at ht
      subst ht
      rfl
    · simp [clearTimer_armedTimers_nil s h]

/-- Arming with a non-positive delay, or while auto-refresh is disabled,
leaves no armed timer. -/
theorem startAutoRefreshToken_disarm (nowMs value : Int) (s : ClientState)
    (h : TimerInv s) (hc : value ≤ 0 ∨ s.autoRefreshToken = false) :
    (startAutoRefreshToken nowMs value s).armedTimers = [] := by
  unfold startAutoRefreshToken; dsimp only
  rw [if_pos]
  · exact clearTimer_armedTimers_nil s h
  · rcases hc with hc | hc
    · exact Or.inl hc
    · exact Or.inr (by simp [hc])

/-- Arming with a positive delay while auto-refresh is enabled leaves exactly
the new timer armed. -/
theorem startAutoRefreshToken_armed (nowMs value : Int) (s : ClientState)
    (h : TimerInv s) (hv : 0 < value) (ha : s.autoRefreshToken = true) :
    (startAutoRefreshToken nowMs value s).armedTimers
      = [⟨s.nextTimerId, nowMs + value⟩] := by
  unfold startAutoRefreshToken; dsimp only
  rw [if_neg]
  · simp [clearTimer_armedTimers_nil s h]
  · simp only [clearTimer_autoRefreshToken, ha, not_or]
    exact ⟨by omega, by simp⟩

theorem armFromExpiry_timerInv (now : Int) (sess : Session) (s : ClientState)
    (h : TimerInv s) : TimerInv (armFromExpiry now sess s) := by
  unfold armFromExpiry
  cases hx : sess.expiresAt with
  | none => exact h
  | some ea =>
    dsimp only
    split
    · exact startAutoRefreshToken_timerInv _ _ _ h
    · exact h

theorem saveSession_timerInv (now : Int) (sess : Session) (s : ClientState)
    (h : TimerInv s) : TimerInv (saveSession now sess s) := by
  unfold saveSession
  split
  · exact persistSessionsOp_timerInv _ _
      (armFromExpiry_timerInv _ _ _ (setMemSession_timerInv _ _ h))
  · exact armFromExpiry_timerInv _ _ _ (setMemSession_timerInv _ _ h)

theorem removeSessions_armed_nil (s : ClientState) (h : TimerInv s) :
    (removeSessions s).armedTimers = [] := by
  unfold removeSessions; dsimp only
  rw [show ∀ t : ClientState, ({ t with storage := .absent } : ClientState).armedTimers
    = t.armedTimers from fun t => rfl]
  exact clearTimer_armedTimers_nil _ ⟨fun t ht => h.1 t ht, h.2⟩

theorem removeSessions_timerInv (s : ClientState) (h : TimerInv s) :
    TimerInv (removeSessions s) :=
  timerInv_of_armed_nil _ (removeSessions_armed_nil s h)

theorem saveSession_armedTimers (now : Int) (sess : Session) (s : ClientState) :
    (saveSession now sess s).armedTimers
      = (armFromExpiry now sess (setMemSession sess s)).armedTimers := by
  unfold saveSession; split <;> simp

theorem callRefreshToken_timerInv (resp : ApiResp Session) (now : Int)
    (rt : Option String) (u : Option User) (s : ClientState) (h : TimerInv s) :
    TimerInv (callRefreshToken resp now rt u s).2 := by
  unfold callRefreshToken
  split
  · exact h
  · split
    · exact h
    · exact h
    · split
      · exact h
      · exact notify_timerInv _ _ (notify_timerInv _ _ (saveSession_timerInv _ _ _ h))

theorem verify_timerInv (resp : ApiResp AuthSuccess) (now : Int) (s : ClientState)
    (h : TimerInv s) : TimerInv (verify resp now s).2 := by
  unfold verify
  cases resp with
  | err e => exact h
  | missing => exact h
  | ok d => exact notify_timerInv _ _ (saveSession_timerInv _ _ _ h)

theorem signOut_timerInv (r : Option ApiError) (s : ClientState) (h : TimerInv s) :
    TimerInv (signOut r s).2 := by
  unfold signOut; dsimp only
  split
  · cases r <;> exact notify_timerInv _ _ (removeSessions_timerInv _ h)
  · exact notify_timerInv _ _ (removeSessions_timerInv _ h)

theorem switchToInactiveSession_timerInv (resp : ApiResp Session) (now : Int)
    (addr : String) (s : ClientState) (h : TimerInv s) :
    TimerInv (switchToInactiveSession resp now addr s).2 := by
  unfold switchToInactiveSession
  split
  · exact h
  · split
    · exact h
    · split
      · exact h
      · split
        · split
          · exact h
          · split
            · exact notify_timerInv _ _ (saveSession_timerInv _ _ _ h)
            · split
              · dsimp only
                split
                · exact removeSessions_timerInv _ (callRefreshToken_timerInv _ _ _ _ _ h)
                · exact callRefreshToken_timerInv _ _ _ _ _ h
              · exact h
        · exact h

theorem recoverActiveSession_timerInv (sync : Bool) (now : Int) (s : ClientState)
    (h : TimerInv s) : TimerInv (recoverActiveSession sync now s) := by
  unfold recoverActiveSession
  split
  · exact h
  · split
    · exact h
    · split
      · exact h
      · split
        · split
          · exact notify_timerInv _ _ (notify_timerInv _ _ (saveSession_timerInv _ _ _ h))
          · exact h
        · exact h

theorem timerInv_loading_set (s : ClientState) (b : Bool) (h : TimerInv s) :
    TimerInv { s with loading := b } := h

theorem recoverAndRefresh_timerInv (resp : ApiResp Session) (now : Int) (s : ClientState)
    (h : TimerInv s) : TimerInv (recoverAndRefresh resp now s) := by
  unfold recoverAndRefresh
  split
  · exact notify_timerInv _ _ h
  · dsimp only
    apply notify_timerInv
    apply timerInv_loading_set
    repeat' split
    all_goals first
      | exact removeSessions_timerInv _ (callRefreshToken_timerInv _ _ _ _ _ h)
      | exact callRefreshToken_timerInv _ _ _ _ _ h
      | exact removeSessions_timerInv _ h
      | exact notify_timerInv _ _ (saveSession_timerInv _ _ _ h)
      | exact h

theorem step_timerInv {a b : ClientState} (st : Step a b) (h : TimerInv a) : TimerInv b := by
  cases st with
  | ofVerify resp now => exact verify_timerInv resp now a h
  | ofSwitch resp now addr => exact switchToInactiveSession_timerInv resp now addr a h
  | ofSignOut r => exact signOut_timerInv r a h
  | ofRecoverSync sync now => exact recoverActiveSession_timerInv sync now a h
  | ofRecoverAsync resp now => exact recoverAndRefresh_timerInv resp now a h
  | ofTimerFire resp now => exact callRefreshToken_timerInv _ _ _ _ _ h
  | ofRemove => exact removeSessions_timerInv _ h

theorem initState_timerInv (autoRefresh persist : Bool) (store : StorageCell) :
    TimerInv (initState autoRefresh persist store) :=
  timerInv_of_armed_nil _ rfl

theorem reachable_timerInv (autoRefresh persist : Bool) (store : StorageCell)
    (s : ClientState) (h : Reachable (initState autoRefresh persist store) s) :
    TimerInv s := by
  induction h with
  | refl => exact initState_timerInv autoRefresh persist store
  | tail _ st ih => exact step_timerInv st ih

/-! ### Case characterizations of the internal refresh -/

theorem callRefreshToken_noToken (resp : ApiResp Session) (now : Int)
    (rt : Option String) (u : Option User) (s : ClientState)
    (hrt : truthyS rt = false) :
    callRefreshToken resp now rt u s = (⟨none, some (.msg "No current session.")⟩, s) := by
  unfold callRefreshToken; rw [if_pos hrt]

theorem callRefreshToken_err (e : ApiError) (now : Int)
    (rt : Option String) (u : Option User) (s : ClientState)
    (hrt : truthyS rt = true) :
    callRefreshToken (.err e) now rt u s = (⟨none, some (.api e)⟩, s) := by
  unfold callRefreshToken; rw [if_neg (by simp [hrt])]

theorem callRefreshToken_missing (now : Int)
    (rt : Option String) (u : Option User) (s : ClientState)
    (hrt : truthyS rt = true) :
    callRefreshToken .missing now rt u s
      = (⟨none, some (.msg "Invalid session data.")⟩, s) := by
  unfold callRefreshToken; rw [if_neg (by simp [hrt])]

theorem callRefreshToken_okNoUser (sess : Session) (now : Int)
    (rt : Option String) (u : Option User) (s : ClientState)
    (hrt : truthyS rt = true) (hsu : sess.user = none) :
    callRefreshToken (.ok sess) now rt u s
      = (⟨none, some (.msg "Invalid session data.")⟩, s) := by
  unfold callRefreshToken
  rw [if_neg (by simp [hrt])]
  simp only [hsu]

theorem callRefreshToken_ok (sess : Session) (su : User) (now : Int)
    (rt : Option String) (u : Option User) (s : ClientState)
    (hrt : truthyS rt = true) (hsu : sess.user = some su) :
    callRefreshToken (.ok sess) now rt u s
      = (⟨some { sess with user := some (u.getD su) }, none⟩,
         notify .signedIn (notify .tokenRefreshed
           (saveSession now { sess with user := some (u.getD su) } s))) := by
  unfold callRefreshToken
  rw [if_neg (by simp [hrt])]
  simp only [hsu]

/-- A failed internal refresh leaves the state exactly as it was. -/
theorem callRefreshToken_error_frame (resp : ApiResp Session) (now : Int)
    (rt : Option String) (u : Option User) (s : ClientState)
    (h : (callRefreshToken resp now rt u s).1.error.isSome = true) :
    (callRefreshToken resp now rt u s).2 = s := by
  cases hrt : truthyS rt with
  | false => rw [callRefreshToken_noToken resp now rt u s hrt]
  | true =>
    cases resp with
    | err e => rw [callRefreshToken_err e now rt u s hrt]
    | missing => rw [callRefreshToken_missing now rt u s hrt]
    | ok sess =>
      cases hsu : sess.user with
      | none => rw [callRefreshToken_okNoUser sess now rt u s hrt hsu]
      | some su =>
        rw [callRefreshToken_ok sess su now rt u s hrt hsu] at h
        simp at h

/-- The internal refresh appends only `TOKEN_REFRESHED` then `SIGNED_IN` (on
success) or nothing (on failure) to the broadcast log. -/
theorem callRefreshToken_events (resp : ApiResp Session) (now : Int)
    (rt : Option String) (u : Option User) (s : ClientState) :
    (callRefreshToken resp now rt u s).2.events = s.events ∨
    (callRefreshToken resp now rt u s).2.events
      = s.events ++ [.tokenRefreshed, .signedIn] := by
  cases hrt : truthyS rt with
  | false => rw [callRefreshToken_noToken resp now rt u s hrt]; exact Or.inl rfl
  | true =>
    cases resp with
    | err e => rw [callRefreshToken_err e now rt u s hrt]; exact Or.inl rfl
    | missing => rw [callRefreshToken_missing now rt u s hrt]; exact Or.inl rfl
    | ok sess =>
      cases hsu : sess.user with
      | none => rw [callRefreshToken_okNoUser sess now rt u s hrt hsu]; exact Or.inl rfl
      | some su =>
        rw [callRefreshToken_ok sess su now rt u s hrt hsu]
        right; simp

/-- The internal refresh succeeds exactly when a truthy refresh token was
supplied and the exchange returned a session carrying a user. -/
theorem callRefreshToken_error_none_iff (resp : ApiResp Session) (now : Int)
    (rt : Option String) (u : Option User) (s : ClientState) :
    (callRefreshToken resp now rt u s).1.error = none ↔
    (truthyS rt = true ∧ ∃ sess su, resp = .ok sess ∧ sess.user = some su) := by
  cases hrt : truthyS rt with
  | false =>
    rw [callRefreshToken_noToken resp now rt u s hrt]
    simp
  | true =>
    cases resp with
    | err e => rw [callRefreshToken_err e now rt u s hrt]; simp
    | missing => rw [callRefreshToken_missing now rt u s hrt]; simp
    | ok sess =>
      cases hsu : sess.user with
      | none =>
        rw [callRefreshToken_okNoUser sess now rt u s hrt hsu]
        simp [hsu]
      | some su =>
        rw [callRefreshToken_ok sess su now rt u s hrt hsu]
        simp [hsu]

/-! ### Claim theorems -/

/-- C1: when the `verify` transport exchange fails or returns no payload, the
result has `session`/`user` null, `isNewUser` false, carries the error, and the
whole manager state (in-memory session, timers, persisted store) is exactly as
before the call: the save path runs only on full success. -/
theorem verify_failure_no_commit (resp : ApiResp AuthSuccess) (now : Int)
    (s : ClientState) (h : ∀ d, resp ≠ ApiResp.ok d) :
    (verify resp now s).1.session = none ∧ (verify resp now s).1.user = none ∧
    (verify resp now s).1.isNewUser = false ∧
    (verify resp now s).1.error.isSome = true ∧
    (verify resp now s).2 = s := by
  cases resp with
  | err e => exact ⟨rfl, rfl, rfl, rfl, rfl⟩
  | missing => exact ⟨rfl, rfl, rfl, rfl, rfl⟩
  | ok d => exact absurd rfl (h d)

theorem verify_failure_no_commit_witness :
    (verify .missing 100 s0).1.session = none ∧ (verify .missing 100 s0).1.user = none ∧
    (verify .missing 100 s0).1.isNewUser = false ∧
    (verify .missing 100 s0).1.error.isSome = true ∧
    (verify .missing 100 s0).2 = s0 :=
  verify_failure_no_commit .missing 100 s0 (fun d h => ApiResp.noConfusion h)

/-- C8 counterexample: a successful verify whose returned session has no bound
user is committed as-is; the separately returned user is not bound onto it
(the claim says it would be), so the committed `currentSession` does not carry
that user. -/
theorem verify_no_user_binding_cex :
    (verify (ApiResp.ok ⟨sessNoUser, userB, true⟩) 100 s0).1.user = some userB ∧
    (verify (ApiResp.ok ⟨sessNoUser, userB, true⟩) 100 s0).2.currentSession
      = some sessNoUser ∧
    (verify (ApiResp.ok ⟨sessNoUser, userB, true⟩) 100 s0).2.currentUser = none ∧
    sessNoUser.user = none := by
  refine ⟨rfl, ?_, ?_, rfl⟩
  · unfold verify; simp
  · unfold verify; simp [sessNoUser]

/-- C8 amended: on a successful exchange, `verify` commits the returned
session unchanged — `currentSession` is exactly the returned session and
`currentUser` is that session's own `user` field; the separately returned
`user` only appears in the call's result value. -/
theorem verify_commits_session_unchanged (d : AuthSuccess) (now : Int) (s : ClientState) :
    (verify (ApiResp.ok d) now s).2.currentSession = some d.session ∧
    (verify (ApiResp.ok d) now s).2.currentUser = d.session.user ∧
    (verify (ApiResp.ok d) now s).1.user = some d.user := by
  unfold verify
  exact ⟨by simp, by simp, rfl⟩

/-- C5 counterexample: a refresh invocation with a non-null user override whose
transport exchange succeeds but returns a session missing its user fails
(`Invalid session data.`) instead of succeeding as the claim states. -/
theorem refresh_missing_user_fails_cex :
    (callRefreshToken (.ok sessNoUser) 100 (some "rtN") (some userB) s0).1.error.isSome
      = true ∧
    (callRefreshToken (.ok sessNoUser) 100 (some "rtN") (some userB) s0).1.data = none ∧
    sessNoUser.user = none := by
  rw [callRefreshToken_okNoUser sessNoUser 100 (some "rtN") (some userB) s0 (by decide) rfl]
  exact ⟨rfl, rfl, rfl⟩

/-- C5 amended: with a truthy refresh token and a non-null user override, a
successful exchange whose session carries a user succeeds and commits the
override user; but an exchange whose session is missing its user fails with
`Invalid session data.` and leaves the state untouched, override
notwithstanding. -/
theorem refresh_user_override (sess : Session) (now : Int) (rt : Option String)
    (u : User) (s : ClientState) (hrt : truthyS rt = true) :
    (∀ su, sess.user = some su →
      (callRefreshToken (.ok sess) now rt (some u) s).1.error = none ∧
      (callRefreshToken (.ok sess) now rt (some u) s).2.currentUser = some u) ∧
    (sess.user = none →
      callRefreshToken (.ok sess) now rt (some u) s
        = (⟨none, some (.msg "Invalid session data.")⟩, s)) := by
  constructor
  · intro su hsu
    rw [callRefreshToken_ok sess su now rt (some u) s hrt hsu]
    exact ⟨rfl, by simp⟩
  · intro hsu
    exact callRefreshToken_okNoUser sess now rt (some u) s hrt hsu

theorem refresh_user_override_witness :
    (callRefreshToken (.ok sessA) 100 (some "rtA") (some userB) s0).1.error = none ∧
    (callRefreshToken (.ok sessA) 100 (some "rtA") (some userB) s0).2.currentUser
      = some userB :=
  (refresh_user_override sessA 100 (some "rtA") userB s0 (by decide)).1 userA rfl

/-- C10: whenever an internal refresh is invoked with a pre-existing user
(override or current) and succeeds, the committed session's user — and hence
`user()` afterwards — is exactly that pre-existing user; user data returned by
the refresh endpoint never replaces it. -/
theorem refresh_preserves_user (resp : ApiResp Session) (now : Int) (rt : Option String)
    (u : User) (s : ClientState)
    (h : (callRefreshToken resp now rt (some u) s).1.error = none) :
    (callRefreshToken resp now rt (some u) s).2.currentUser = some u ∧
    ∃ sess1, (callRefreshToken resp now rt (some u) s).2.currentSession = some sess1
      ∧ sess1.user = some u := by
  obtain ⟨hrt, sess, su, rfl, hsu⟩ :=
    (callRefreshToken_error_none_iff resp now rt (some u) s).1 h
  rw [callRefreshToken_ok sess su now rt (some u) s hrt hsu]
  exact ⟨by simp, ⟨{ sess with user := some u }, by simp, rfl⟩⟩

theorem refresh_preserves_user_witness :
    (callRefreshToken (.ok sessA) 100 (some "rtA") (some userB) s0).2.currentUser
      = some userB :=
  (refresh_preserves_user (.ok sessA) 100 (some "rtA") userB s0
    (by rw [callRefreshToken_ok sessA userA 100 (some "rtA") (some userB) s0
      (by decide) rfl])).1

/-! ### signOut characterization and C4 -/

theorem signOut_snd (r : Option ApiError) (s : ClientState) :
    (signOut r s).2 = notify .signedOut (removeSessions s) := by
  unfold signOut; dsimp only
  split
  · cases r <;> rfl
  · rfl

theorem signOut_fst_revoke (r : Option ApiError) (s : ClientState) :
    (signOut r s).1.revokeCalledWith
      = (if truthyS (s.currentSession.map (fun c => c.accessToken)) = true then
          s.currentSession.map (fun c => c.accessToken) else none) := by
  unfold signOut; dsimp only
  split
  · cases r <;> rfl
  · rfl

theorem signOut_fst_error (r : Option ApiError) (s : ClientState) :
    (signOut r s).1.error
      = (if truthyS (s.currentSession.map (fun c => c.accessToken)) = true then r
         else none) := by
  unfold signOut; dsimp only
  split
  · cases r <;> rfl
  · rfl

/-- C4: `signOut` captures the access token, clears `currentSession` and
`currentUser`, cancels the armed timer, erases the storage key, broadcasts
`SIGNED_OUT`, and only then — and only if a truthy token was captured — calls
the revoke operation, surfacing its error; the local clearing holds whatever
the revoke outcome. -/
theorem signOut_clears_state (r : Option ApiError) (s : ClientState) (h : TimerInv s) :
    (signOut r s).2.currentSession = none ∧
    (signOut r s).2.currentUser = none ∧
    (signOut r s).2.storage = .absent ∧
    (signOut r s).2.armedTimers = [] ∧
    (signOut r s).2.events = s.events ++ [.signedOut] ∧
    (signOut r s).1.revokeCalledWith
      = (if truthyS (s.currentSession.map (fun c => c.accessToken)) = true then
          s.currentSession.map (fun c => c.accessToken) else none) ∧
    (signOut r s).1.error
      = (if truthyS (s.currentSession.map (fun c => c.accessToken)) = true then r
         else none) := by
  rw [signOut_snd, signOut_fst_revoke, signOut_fst_error]
  refine ⟨by simp, by simp, by simp, ?_, by simp, rfl, rfl⟩
  rw [notify_armedTimers]
  exact removeSessions_armed_nil s h

theorem signOut_clears_state_witness :
    (signOut (some ⟨"boom", 500⟩) sActive).2.currentSession = none ∧
    (signOut (some ⟨"boom", 500⟩) sActive).2.currentUser = none ∧
    (signOut (some ⟨"boom", 500⟩) sActive).2.storage = .absent ∧
    (signOut (some ⟨"boom", 500⟩) sActive).2.armedTimers = [] ∧
    (signOut (some ⟨"boom", 500⟩) sActive).2.events
      = sActive.events ++ [.signedOut] ∧
    (signOut (some ⟨"boom", 500⟩) sActive).1.revokeCalledWith
      = (if truthyS (sActive.currentSession.map (fun c => c.accessToken)) = true then
          sActive.currentSession.map (fun c => c.accessToken) else none) ∧
    (signOut (some ⟨"boom", 500⟩) sActive).1.error
      = (if truthyS (sActive.currentSession.map (fun c => c.accessToken)) = true then
          some ⟨"boom", 500⟩ else none) :=
  signOut_clears_state (some ⟨"boom", 500⟩) sActive
    ⟨by decide, by decide⟩

/-! ### Timer arming characterization and C2 -/

theorem armFromExpiry_armed (now : Int) (sess : Session) (s : ClientState)
    (h : TimerInv s) (ha : s.autoRefreshToken = true) (ea : Int)
    (hea : sess.expiresAt = some ea) (hz : ea ≠ 0) (hpos : 1 ≤ ea - now) :
    (armFromExpiry now sess s).armedTimers
      = [⟨s.nextTimerId, ea * 1000 - (if 60 < ea - now then 60000 else 500)⟩] := by
  unfold armFromExpiry
  rw [hea]
  dsimp only
  rw [if_pos hz]
  by_cases h60 : 60 < ea - now
  · rw [if_pos h60, startAutoRefreshToken_armed _ _ _ h (by omega) ha, if_pos h60]
    have harith : now * 1000 + (ea - now - 60) * 1000 = ea * 1000 - 60000 := by ring
    rw [harith]
  · rw [if_neg h60, startAutoRefreshToken_armed _ _ _ h (by omega) ha, if_neg h60]
    have harith : now * 1000 + ((ea - now) * 1000 - 500) = ea * 1000 - 500 := by ring
    rw [harith]

/-- C2 counterexample: a session whose `expiresAt` is set but already reached
(`expiresIn = 0`) arms no timer at all after save — the computed delay
`(0 - 0.5) * 1000` is non-positive, so the scheduler stays disarmed, contrary
to the claim that a refresh is always scheduled before expiry. -/
theorem save_expired_not_armed_cex :
    sessA.expiresAt = some 1000 ∧
    s0.autoRefreshToken = true ∧
    (saveSession 1000 sessA s0).armedTimers = [] := by
  refine ⟨rfl, rfl, ?_⟩
  decide

/-- C2 amended: for sessions with a truthy `expiresAt` and positive remaining
lifetime `expiresIn = expiresAt − now ≥ 1` (and auto-refresh enabled), save
arms exactly one timer whose fire time is `expiresAt − margin`, margin `60 s`
when `expiresIn > 60` and `0.5 s` otherwise, which is strictly before expiry;
with `expiresIn ≤ 0` the computed delay is non-positive and nothing is
armed. -/
theorem save_arms_timer_margin (now : Int) (sess : Session) (s : ClientState)
    (h : TimerInv s) (ha : s.autoRefreshToken = true) (ea : Int)
    (hea : sess.expiresAt = some ea) (hz : ea ≠ 0) :
    (1 ≤ ea - now →
      (saveSession now sess s).armedTimers
        = [⟨s.nextTimerId, ea * 1000 - (if 60 < ea - now then 60000 else 500)⟩] ∧
      ea * 1000 - (if 60 < ea - now then 60000 else 500) < ea * 1000) ∧
    (ea - now ≤ 0 → (saveSession now sess s).armedTimers = []) := by
  constructor
  · intro hpos
    constructor
    · rw [saveSession_armedTimers]
      exact armFromExpiry_armed now sess (setMemSession sess s)
        (setMemSession_timerInv _ _ h) (by simp [ha]) ea hea hz hpos
    · split <;> omega
  · intro hneg
    rw [saveSession_armedTimers]
    unfold armFromExpiry
    rw [hea]
    dsimp only
    rw [if_pos hz]
    rw [if_neg (by omega)]
    exact startAutoRefreshToken_disarm _ _ _ (setMemSession_timerInv _ _ h)
      (Or.inl (by omega))

theorem save_arms_timer_margin_witness :
    (saveSession 100 sessA s0).armedTimers
      = [⟨s0.nextTimerId, 1000 * 1000 - (if 60 < (1000 : Int) - 100 then 60000 else 500)⟩] ∧
    (1000 : Int) * 1000 - (if 60 < (1000 : Int) - 100 then 60000 else 500) < 1000 * 1000 :=
  (save_arms_timer_margin 100 sessA s0 (initState_timerInv true true .absent)
    rfl 1000 rfl (by decide)).1 (by decide)

/-! ### Persisted-store characterization and C9 -/

theorem mem_keys_insertSession (l : List (String × Session)) (a : String) (v : Session)
    (x : String) :
    x ∈ (insertSession l a v).map Prod.fst ↔ x = a ∨ x ∈ l.map Prod.fst := by
  induction l with
  | nil => simp [insertSession]
  | cons p rest ih =>
    rw [insertSession]
    by_cases hp : p.1 = a
    · rw [if_pos hp]
      simp [hp]
    · rw [if_neg hp]
      simp only [List.map_cons, List.mem_cons, ih]
      tauto

theorem nodup_insertSession (l : List (String × Session)) (a : String) (v : Session)
    (h : (l.map Prod.fst).Nodup) :
    ((insertSession l a v).map Prod.fst).Nodup := by
  induction l with
  | nil => simp [insertSession]
  | cons p rest ih =>
    rw [insertSession]
    obtain ⟨hni, hnd⟩ := List.nodup_cons.1 (by rwa [List.map_cons] at h)
    by_cases hp : p.1 = a
    · rw [if_pos hp]
      simp only [List.map_cons]
      exact List.nodup_cons.2 ⟨by rwa [hp] at hni, hnd⟩
    · rw [if_neg hp]
      simp only [List.map_cons]
      refine List.nodup_cons.2 ⟨?_, ih hnd⟩
      rw [mem_keys_insertSession]
      rintro (hx | hx)
      · exact hp hx
      · exact hni hx

theorem count_insertSession (l : List (String × Session)) (a : String) (v : Session)
    (h : (l.map Prod.fst).Nodup) :
    ((insertSession l a v).map Prod.fst).count a = 1 := by
  induction l with
  | nil => simp [insertSession]
  | cons p rest ih =>
    rw [insertSession]
    obtain ⟨hni, hnd⟩ := List.nodup_cons.1 (by rwa [List.map_cons] at h)
    by_cases hp : p.1 = a
    · rw [if_pos hp]
      have hmem : a ∉ rest.map Prod.fst := by rwa [hp] at hni
      simp [List.count_eq_zero.2 hmem]
    · rw [if_neg hp]
      simp only [List.map_cons, List.count_cons, ih hnd]
      simp [Ne.symm hp]
      exact hp

@[simp] theorem saveSession_persistSessions (now : Int) (sess : Session) (s : ClientState) :
    (saveSession now sess s).persistSessions = s.persistSessions := by
  unfold saveSession; split <;> simp

theorem saveSession_storage (now : Int) (sess : Session) (u : User) (s : ClientState)
    (hp : s.persistSessions = true) (hu : sess.user = some u) :
    (saveSession now sess s).storage
      = .doc ⟨insertSession ((readStorage s.storage).getD ⟨[], ""⟩).sessions u.id sess,
              u.id⟩ := by
  unfold saveSession
  rw [if_pos (by simp [hp])]
  unfold persistSessionsOp
  rw [hu]
  dsimp only
  simp

/-- C9: for every prior persisted-store content with the (parse-guaranteed)
unique keys, saving a session twice in a row leaves exactly one persisted
entry under its user's address, and after each save the persisted
`activeAddress` is that address. -/
theorem persist_save_idempotent (now now2 : Int) (sess : Session) (u : User)
    (s : ClientState) (hp : s.persistSessions = true) (hu : sess.user = some u)
    (hn : CellKeysNodup s.storage) :
    (∃ d1, (saveSession now sess s).storage = .doc d1 ∧ d1.activeAddress = u.id ∧
      (d1.sessions.map Prod.fst).count u.id = 1) ∧
    (∃ d2, (saveSession now2 sess (saveSession now sess s)).storage = .doc d2 ∧
      d2.activeAddress = u.id ∧ (d2.sessions.map Prod.fst).count u.id = 1) := by
  have hprior : (((readStorage s.storage).getD ⟨[], ""⟩).sessions.map Prod.fst).Nodup := by
    cases hst : s.storage with
    | doc d =>
      rw [hst] at hn
      simpa [readStorage] using hn
    | absent => simp [readStorage, hst]
    | malformed => simp [readStorage, hst]
  have h1 := saveSession_storage now sess u s hp hu
  refine ⟨⟨_, h1, rfl, count_insertSession _ _ _ hprior⟩, ?_⟩
  have hp1 : (saveSession now sess s).persistSessions = true := by
    rw [saveSession_persistSessions]; exact hp
  have h2 := saveSession_storage now2 sess u (saveSession now sess s) hp1 hu
  rw [h1] at h2
  simp only [readStorage, Option.getD_some] at h2
  exact ⟨_, h2, rfl,
    count_insertSession _ _ _ (nodup_insertSession _ _ _ hprior)⟩

theorem persist_save_idempotent_witness :
    (∃ d1, (saveSession 100 sessA s0).storage = .doc d1 ∧ d1.activeAddress = userA.id ∧
      (d1.sessions.map Prod.fst).count userA.id = 1) ∧
    (∃ d2, (saveSession 200 sessA (saveSession 100 sessA s0)).storage = .doc d2 ∧
      d2.activeAddress = userA.id ∧ (d2.sessions.map Prod.fst).count userA.id = 1) :=
  persist_save_idempotent 100 200 sessA userA s0 rfl rfl trivial

/-! ### Broadcast counting for startup recovery and C3 -/

theorem callRefreshToken_isl (resp : ApiResp Session) (now : Int)
    (rt : Option String) (u : Option User) (s : ClientState) :
    (callRefreshToken resp now rt u s).2.events.count .initialStateLoaded
      = s.events.count .initialStateLoaded := by
  rcases callRefreshToken_events resp now rt u s with he | he <;>
    simp [he, List.count_append]

theorem recoverAndRefresh_isl (resp : ApiResp Session) (now : Int) (s : ClientState) :
    (recoverAndRefresh resp now s).events.count .initialStateLoaded
      = s.events.count .initialStateLoaded + 1 := by
  unfold recoverAndRefresh
  split
  · simp
  · dsimp only
    rw [notify_events, List.count_append]
    have hone : ([AuthEvent.initialStateLoaded].count AuthEvent.initialStateLoaded) = 1 := by
      simp
    rw [hone]
    congr 1
    repeat' split
    all_goals first
      | rfl
      | (simp only [removeSessions_events]
         rw [callRefreshToken_error_frame _ _ _ _ _ (by assumption)])
      | rw [callRefreshToken_isl]
      | simp
      | simp [List.count_append]

theorem recoverAndRefresh_events_last (resp : ApiResp Session) (now : Int)
    (s : ClientState) :
    ∃ l, (recoverAndRefresh resp now s).events = l ++ [.initialStateLoaded] := by
  unfold recoverAndRefresh
  split
  · exact ⟨_, rfl⟩
  · exact ⟨_, rfl⟩

/-- When the adoption guard holds, phase 1 broadcasts exactly
`INITIAL_STATE_LOADED` then `SIGNED_IN`. -/
theorem recoverActiveSession_adopts (sync : Bool) (now : Int) (s : ClientState)
    (h : phase1Adopts sync now s) :
    (recoverActiveSession sync now s).events
      = s.events ++ [.initialStateLoaded, .signedIn] := by
  obtain ⟨d, cur, ea, hrd, hact, hlk, hea, hz, hle, hu⟩ := h
  unfold recoverActiveSession
  rw [hrd]
  dsimp only
  rw [if_neg hact, hlk]
  dsimp only
  rw [hea]
  dsimp only
  rw [if_pos ⟨hz, hle, hu⟩]
  simp

/-- When the adoption guard fails, phase 1 is a complete no-op: the state —
broadcast log included — is unchanged. -/
theorem recoverActiveSession_no_adopt (sync : Bool) (now : Int) (s : ClientState)
    (h : ¬ phase1Adopts sync now s) :
    recoverActiveSession sync now s = s := by
  unfold recoverActiveSession
  split
  · rfl
  · rename_i xd d hrd
    split
    · rfl
    · rename_i hact
      split
      · rfl
      · rename_i xc cur hlk
        split
        · rename_i xe ea hea
          split
          · rename_i hcond
            exact absurd ⟨d, cur, ea, hrd, hact, hlk, hea,
              hcond.1, hcond.2.1, hcond.2.2⟩ h
          · rfl
        · rfl

/-- C3 amended: phase 2 always broadcasts `INITIAL_STATE_LOADED` exactly once,
as its final event, whatever the storage content and refresh outcome; phase 1
broadcasts it once more exactly when it synchronously adopts a valid unexpired
session (and otherwise changes nothing at all), so a full startup run emits it
exactly once — or exactly twice when phase 1 adopts. -/
theorem initial_state_loaded_phase2_once (sync : Bool) (resp : ApiResp Session)
    (now : Int) (s : ClientState) :
    ((fullRecovery sync resp now s).events.count .initialStateLoaded
      = (recoverActiveSession sync now s).events.count .initialStateLoaded + 1) ∧
    (phase1Adopts sync now s →
      (recoverActiveSession sync now s).events.count .initialStateLoaded
        = s.events.count .initialStateLoaded + 1) ∧
    (¬ phase1Adopts sync now s → recoverActiveSession sync now s = s) ∧
    (phase1Adopts sync now s →
      (fullRecovery sync resp now s).events.count .initialStateLoaded
        = s.events.count .initialStateLoaded + 2) ∧
    (¬ phase1Adopts sync now s →
      (fullRecovery sync resp now s).events.count .initialStateLoaded
        = s.events.count .initialStateLoaded + 1) ∧
    ∃ l, (fullRecovery sync resp now s).events = l ++ [.initialStateLoaded] := by
  have hph1 : ∀ h : phase1Adopts sync now s,
      (recoverActiveSession sync now s).events.count .initialStateLoaded
        = s.events.count .initialStateLoaded + 1 := by
    intro h
    rw [recoverActiveSession_adopts sync now s h]
    simp [List.count_append]
  refine ⟨recoverAndRefresh_isl resp now _, hph1, recoverActiveSession_no_adopt sync now s,
    ?_, ?_, recoverAndRefresh_events_last resp now _⟩
  · intro h
    rw [show fullRecovery sync resp now s
        = recoverAndRefresh resp now (recoverActiveSession sync now s) from rfl,
      recoverAndRefresh_isl, hph1 h]
  · intro h
    rw [show fullRecovery sync resp now s
        = recoverAndRefresh resp now (recoverActiveSession sync now s) from rfl,
      recoverAndRefresh_isl, recoverActiveSession_no_adopt sync now s h]

theorem initial_state_loaded_phase2_once_witness :
    (fullRecovery true .missing 100 sDocA).events.count .initialStateLoaded
      = sDocA.events.count .initialStateLoaded + 2 :=
  (initial_state_loaded_phase2_once true .missing 100 sDocA).2.2.2.1
    ⟨docA, sessA, 1000, rfl, by decide, rfl, rfl, by decide, by decide, rfl⟩

/-- C3 counterexample: over a store holding a valid unexpired active session
(with synchronous storage), a full startup run broadcasts
`INITIAL_STATE_LOADED` twice — once from phase 1 on adoption, once after
phase 2 — not exactly once as claimed. -/
theorem initial_state_loaded_twice_cex :
    (fullRecovery true .missing 100 sDocA).events.count .initialStateLoaded = 2 := by
  decide

/-! ### C6 and C7 -/

/-- C6: on every `false`-returning run of `switchToInactiveSession` the state
is unchanged, except on the single path where the persisted session for the
address exists, is complete, is expired, auto-refresh is enabled, a refresh
token is present and the refresh attempt fails — where the removal primitive
runs, erasing the persisted store. -/
theorem switch_false_frame (resp : ApiResp Session) (now : Int) (addr : String)
    (s : ClientState)
    (h : (switchToInactiveSession resp now addr s).1 = false) :
    (switchToInactiveSession resp now addr s).2 = s ∨
    ((switchToInactiveSession resp now addr s).2 = removeSessions s ∧
      (switchToInactiveSession resp now addr s).2.storage = .absent ∧
      ∃ d inact ea, readStorage s.storage = some d ∧
        lookupSession d.sessions addr = some inact ∧
        inact.expiresAt = some ea ∧ ea ≠ 0 ∧ inact.user.isSome = true ∧
        ea < now ∧ s.autoRefreshToken = true ∧
        truthyS inact.refreshToken = true) := by
  revert h
  unfold switchToInactiveSession
  split
  · intro h; exact absurd h (by simp)
  · split
    · intro _; exact Or.inl rfl
    · split
      · intro _; exact Or.inl rfl
      · split
        · split
          · intro _; exact Or.inl rfl
          · split
            · intro h; exact absurd h (by simp)
            · split
              · dsimp only
                split
                · rename_i hcu xa d heqd xb inact heql xc xd ea iu heqea hequ hea0
                    hnle hauto xe err heqerr
                  intro _
                  right
                  have hsome : (callRefreshToken resp now inact.refreshToken
                      (some iu) s).1.error.isSome = true := by rw [heqerr]; rfl
                  have hframe := callRefreshToken_error_frame resp now
                    inact.refreshToken (some iu) s hsome
                  refine ⟨by rw [hframe], by simp, d, inact, ea, heqd, heql, heqea,
                    hea0, by rw [hequ]; rfl, by omega, hauto.1, hauto.2⟩
                · intro h; exact absurd h (by simp)
              · intro _; exact Or.inl rfl
        · intro _; exact Or.inl rfl

theorem switch_false_frame_witness :
    (switchToInactiveSession .missing 100 "0xA" s0).2 = s0 ∨
    ((switchToInactiveSession .missing 100 "0xA" s0).2 = removeSessions s0 ∧
      (switchToInactiveSession .missing 100 "0xA" s0).2.storage = .absent ∧
      ∃ d inact ea, readStorage s0.storage = some d ∧
        lookupSession d.sessions "0xA" = some inact ∧
        inact.expiresAt = some ea ∧ ea ≠ 0 ∧ inact.user.isSome = true ∧
        ea < 100 ∧ s0.autoRefreshToken = true ∧
        truthyS inact.refreshToken = true) :=
  switch_false_frame .missing 100 "0xA" s0 (by decide)

/-- C7: every state reachable from a fresh client has at most one armed
refresh timer, and arming with a non-positive delay or with auto-refresh
disabled leaves the scheduler disarmed. -/
theorem refresh_timer_at_most_one :
    (∀ (a p : Bool) (store : StorageCell) (s : ClientState),
      Reachable (initState a p store) s → s.armedTimers.length ≤ 1) ∧
    (∀ (s : ClientState) (nowMs v : Int), TimerInv s →
      (v ≤ 0 ∨ s.autoRefreshToken = false) →
      (startAutoRefreshToken nowMs v s).armedTimers = []) :=
  ⟨fun a p store s h => (reachable_timerInv a p store s h).2,
   fun s nowMs v h hc => startAutoRefreshToken_disarm nowMs v s h hc⟩

theorem refresh_timer_at_most_one_witness :
    (signOut none (initState true true (.doc docA))).2.armedTimers.length ≤ 1 ∧
    (startAutoRefreshToken 0 0 sActive).armedTimers = [] :=
  ⟨refresh_timer_at_most_one.1 true true (.doc docA) _
      (Relation.ReflTransGen.single (Step.ofSignOut _ none)),
   refresh_timer_at_most_one.2 sActive 0 0 ⟨by decide, by decide⟩
      (Or.inl (by norm_num))⟩
